import Mathlib

/-!
Verification of the tinywx weather tool: a shallow embedding of the
`wx` library (`src/wx/src/lib.rs`) and of the configuration resolution
and rendering steps of the binary (`src/src/main.rs`), with theorems
settling the specification claims.

Embedding conventions:
* Rust `f64` fields are embedded as the exact rational numbers the
  floating-point values denote (`ℚ`); the rounding the code performs
  (`f64::round`, half away from zero) is exact on those rationals.
* Rust functions that can panic are embedded as `Option`-returning
  functions, with `none` standing for the panic.
* Machine integers (`i64`, `u64`, `u16`) are embedded as `Int`/`Nat`;
  none of the code paths modelled here perform wrapping arithmetic.
-/

namespace Wx

/-- OpenWeatherMap icon codes (constants at the top of `lib.rs`). -/
def CLEAR_DAY : String := "01d"

def CLEAR_NIGHT : String := "01n"

def FEW_CLOUDS_DAY : String := "02d"

def FEW_CLOUDS_NIGHT : String := "02n"

def SCATTERED_CLOUDS_DAY : String := "03d"

def SCATTERED_CLOUDS_NIGHT : String := "03n"

def BROKEN_CLOUDS_DAY : String := "04d"

def BROKEN_CLOUDS_NIGHT : String := "04n"

def SHOWER_RAIN_DAY : String := "09d"

def SHOWER_RAIN_NIGHT : String := "09n"

def RAIN_DAY : String := "10d"

def RAIN_NIGHT : String := "10n"

def THUNDERSTORM_DAY : String := "11d"

def THUNDERSTORM_NIGHT : String := "11n"

def SNOW_DAY : String := "13d"

def SNOW_NIGHT : String := "13n"

def MIST_DAY : String := "50d"

def MIST_NIGHT : String := "50n"

/-- `Location` from `lib.rs`: city, state, country, all strings. -/
structure Location where
  city : String
  state : String
  country : String

/-- `Location::to_string`: "city,state,country", or "city,country" when
the state is empty. The Rust `format!` calls are embedded as string
appends. -/
def Location.to_string (l : Location) : String :=
  if l.state.isEmpty then
    l.city ++ "," ++ l.country
  else
    l.city ++ "," ++ l.state ++ "," ++ l.country

/-- `match_icon` from `lib.rs`: translate an OpenWeatherMap icon id to a
glyph. A Rust `match` on string literals tests the scrutinee against each
arm in order, embedded here as a chain of equality tests; an arm
`A | B => e` becomes a disjunctive test. The glyphs are the exact
code-point contents of the Rust string literals. -/
def match_icon (code : String) : String :=
  if code = CLEAR_DAY then ""
  else if code = CLEAR_NIGHT then ""
  else if code = FEW_CLOUDS_DAY then ""
  else if code = FEW_CLOUDS_NIGHT then ""
  else if code = SCATTERED_CLOUDS_DAY ∨ code = SCATTERED_CLOUDS_NIGHT then "摒"
  else if code = BROKEN_CLOUDS_DAY ∨ code = BROKEN_CLOUDS_NIGHT then ""
  else if code = SHOWER_RAIN_DAY ∨ code = SHOWER_RAIN_NIGHT then ""
  else if code = RAIN_DAY ∨ code = RAIN_NIGHT then ""
  else if code = THUNDERSTORM_DAY ∨ code = THUNDERSTORM_NIGHT then ""
  else if code = SNOW_DAY ∨ code = SNOW_NIGHT then ""
  else if code = MIST_DAY ∨ code = MIST_NIGHT then ""
  else "?"

/-- The eighteen icon codes that appear in `match_icon`'s fixed table. -/
def iconTable : List String :=
  [CLEAR_DAY, CLEAR_NIGHT, FEW_CLOUDS_DAY, FEW_CLOUDS_NIGHT,
   SCATTERED_CLOUDS_DAY, SCATTERED_CLOUDS_NIGHT,
   BROKEN_CLOUDS_DAY, BROKEN_CLOUDS_NIGHT,
   SHOWER_RAIN_DAY, SHOWER_RAIN_NIGHT, RAIN_DAY, RAIN_NIGHT,
   THUNDERSTORM_DAY, THUNDERSTORM_NIGHT, SNOW_DAY, SNOW_NIGHT,
   MIST_DAY, MIST_NIGHT]

/-- `Coord` from `lib.rs` (longitude, latitude). -/
structure Coord where
  lon : ℚ
  lat : ℚ

/-- `Weather` from `lib.rs`: one weather-condition entry. -/
structure Weather where
  id : Nat
  main : String
  description : String
  icon : String

/-- `Main` from `lib.rs`: the main measurement block. -/
structure Main where
  temp : ℚ
  feels_like : ℚ
  pressure : Nat
  humidity : Nat
  temp_min : ℚ
  temp_max : ℚ

/-- `Wind` from `lib.rs`. -/
structure Wind where
  speed : ℚ
  deg : Nat
  gust : Option ℚ

/-- `Clouds` from `lib.rs`. -/
structure Clouds where
  all : Nat

/-- `Sys` from `lib.rs`. -/
structure Sys where
  type_ : Int
  id : Int
  message : Option String
  country : String
  sunrise : Nat
  sunset : Nat

/-- `CurrentWeather` from `lib.rs`: the parsed provider payload. -/
structure CurrentWeather where
  coord : Option Coord
  weather : List Weather
  base : String
  main : Main
  visibility : Nat
  wind : Wind
  clouds : Clouds
  dt : Int
  sys : Sys
  timezone : Int
  id : Nat
  name : String
  cod : Nat

/-- `f64::round`: round half away from zero. Exact on the rational value
an `f64` denotes. -/
def rustRound (q : ℚ) : ℤ :=
  if 0 ≤ q then ⌊q + 1/2⌋ else -⌊-q + 1/2⌋

/-- Two-digit zero padding, as chrono's `%H`/`%M`/`%S` produce. -/
def pad2 (n : Nat) : String :=
  if n < 10 then "0" ++ toString n else toString n

/-- The largest UTC timestamp chrono can represent
(262143-12-31T23:59:59). -/
def chronoMaxTimestamp : Int := 8210298412799

/-- `epoch_to_time` from `lib.rs`: `UNIX_EPOCH + Duration::from_secs
(epoch.try_into().unwrap())` formatted with chrono as `%H:%M:%S`.
The `try_into().unwrap()` panics for a negative epoch, and chrono's
`DateTime` conversion panics past its maximal date; both panics are
embedded as `none`. Unix time has no leap seconds, so the hour, minute
and second of day are the div/mod decomposition of the epoch. -/
def epoch_to_time (epoch : Int) : Option String :=
  if 0 ≤ epoch ∧ epoch ≤ chronoMaxTimestamp then
    some (pad2 (epoch.toNat / 3600 % 24) ++ ":" ++
          pad2 (epoch.toNat / 60 % 60) ++ ":" ++
          pad2 (epoch.toNat % 60))
  else none

/-- The Rust `Display` output of `q.round()` as an `f64`: an integral
`f64` prints its integer, except that `f64::round` preserves the sign
of zero, so a strictly negative value that rounds to zero prints as
"-0". (An input that is itself the float -0.0 denotes the rational 0
and its sign is outside the rational embedding.) -/
def displayRound (q : ℚ) : String :=
  if q < 0 ∧ rustRound q = 0 then "-0" else toString (rustRound q)

/-- `CurrentWeather::get` from `lib.rs`: render one supported data item.
A Rust `match` on the string `item` is embedded as an equality chain.
`self.weather[0]` panics when the list is empty, embedded via `head?`;
the `format!("{}°", …)` of the rounded `f64` prints via
`displayRound`. -/
def CurrentWeather.get (w : CurrentWeather) (item : String) : Option String :=
  if item = "icon" then w.weather.head?.map (fun x => match_icon x.icon)
  else if item = "temp" then some (displayRound w.main.temp ++ "°")
  else if item = "feels_like" then some (displayRound w.main.feels_like ++ "°")
  else if item = "humidity" then some (toString w.main.humidity ++ "%")
  else if item = "description" then w.weather.head?.map (fun x => x.description)
  else if item = "time" then epoch_to_time (w.dt + w.timezone)
  else some ("('" ++ item ++ "?')")

/-- A `CurrentWeather` value with the fields the claims never read held
fixed, used for concrete witnesses. -/
def mkResponse (w : List Weather) (temp feels : ℚ) (hum : Nat) (dt tz : Int) :
    CurrentWeather :=
  { coord := none
    weather := w
    base := "stations"
    main :=
      { temp := temp, feels_like := feels, pressure := 1012, humidity := hum,
        temp_min := temp, temp_max := temp }
    visibility := 10000
    wind := { speed := 3, deg := 200, gust := none }
    clouds := { all := 0 }
    dt := dt
    sys :=
      { type_ := 1, id := 1414, message := none, country := "GB",
        sunrise := 1661834187, sunset := 1661882248 }
    timezone := tz
    id := 2643743
    name := "London"
    cod := 200 }

/-- A concrete weather-condition entry for witnesses. -/
def clearSky : Weather :=
  { id := 800, main := "Clear", description := "clear sky", icon := "01d" }

end Wx

namespace Tinywx

/-- `Config` from `main.rs`: the resolved configuration. -/
structure Config where
  city : String
  state : String
  country : String
  api_key : String
  imperial : Bool
  data : List String
deriving DecidableEq, Repr

/-- A parsed TOML table for `Config`: which of the six keys the file
supplies. Serde fills `state`, `imperial` and `data` from defaults when
absent; the other three keys have no default. -/
structure FileConfig where
  city : Option String
  state : Option String
  country : Option String
  api_key : Option String
  imperial : Option Bool
  data : Option (List String)
deriving DecidableEq, Repr

/-- `toml_from_file` from `main.rs`, after the file has been read and
parsed into a table: `toml::from_str::<Config>` succeeds exactly when
the keys without a serde default (`city`, `country`, `api_key`) are
present, and substitutes `""`, `false` and `[]` for an absent `state`,
`imperial` and `data`. The `fs::read_to_string` I/O step is outside the
embedding. -/
def toml_from_file (t : FileConfig) : Except String Config :=
  match t.city, t.country, t.api_key with
  | some c, some co, some k =>
      .ok { city := c, state := t.state.getD "", country := co, api_key := k,
            imperial := t.imperial.getD false, data := t.data.getD [] }
  | _, _, _ => .error "missing field"

/-- The `possible_values` list of the `data` argument in `app`
(`main.rs`). Note that it does not contain `"time"`. -/
def dataPossibleValues : List String :=
  ["icon", "temp", "feels_like", "description", "humidity"]

/-- The command-line branch of `app` (`main.rs`): clap rejects the
invocation when a `required(true)` argument (`city`, `country`, `data`,
`api_key`) is absent, or when a value of `data` is outside its
`possible_values`; a present `data` occurrence carries at least one
value. Otherwise the `Config` is filled from the matches, with `state`
defaulting to `""` and `imperial` set by flag presence. -/
def cliConfig (city state country : Option String) (data : Option (List String))
    (imperial : Bool) (api_key : Option String) : Except String Config :=
  match city, country, data, api_key with
  | some c, some co, some ds, some k =>
      if ds.isEmpty then .error "data requires a value"
      else if ds.all (fun d => d ∈ dataPossibleValues) then
        .ok { city := c, state := state.getD "", country := co, api_key := k,
              imperial := imperial, data := ds }
      else .error "invalid value for data"
  | _, _, _, _ => .error "missing required argument"

/-- The rendering step at the end of `app` (`main.rs`): map
`current_weather.get` over the requested data fields and join with
single spaces. A panic in any `get` call (embedded as `none`) aborts
the whole line. -/
def appOutput (w : Wx.CurrentWeather) (data : List String) : Option String :=
  (data.mapM w.get).map (String.intercalate " ")

end Tinywx

open Wx Tinywx

/-- Helper for the output-line claim: mapping `get` over a field list
succeeds with exactly the pointwise renderings. -/
theorem mapM_get_eq_some (w : CurrentWeather) {fields outs : List String}
    (h : List.Forall₂ (fun f s => w.get f = some s) fields outs) :
    fields.mapM w.get = some outs := by
  induction h with
  | nil => rfl
  | cons h1 h2 ih => rw [List.mapM_cons, h1, ih]; rfl

/-- Helper: `rustRound` lands within 1/2 of its argument, so it is a
nearest integer. -/
theorem rustRound_near (q : ℚ) : |(rustRound q : ℚ) - q| ≤ 1/2 := by
  unfold rustRound
  split <;> rename_i h <;> rw [abs_le] <;> constructor <;> push_cast
  · have := Int.lt_floor_add_one (q + 1/2)
    push_cast at this; linarith
  · have := Int.floor_le (q + 1/2)
    push_cast at this; linarith
  · have := Int.floor_le (-q + 1/2)
    push_cast at this; linarith
  · have := Int.lt_floor_add_one (-q + 1/2)
    push_cast at this; linarith

/-- C1 counterexample: the day and night codes of the clear category map
to different symbols (U+E30D versus U+F186), and likewise the few-clouds
codes (U+E302 versus U+E37E), so the day/night variants do not all
collapse as claimed. -/
theorem C1_counterexample :
    match_icon "01d" ≠ match_icon "01n" ∧ match_icon "02d" ≠ match_icon "02n" := by
  decide

/-- C1 (amended): the day-variant and night-variant codes map to the
same symbol for scattered-clouds (03), broken-clouds (04), shower-rain
(09), rain (10), thunderstorm (11), snow (13) and mist (50), but clear
(01) and few-clouds (02) each have distinct day and night symbols. -/
theorem C1_day_night_amended :
    match_icon "03d" = match_icon "03n" ∧
    match_icon "04d" = match_icon "04n" ∧
    match_icon "09d" = match_icon "09n" ∧
    match_icon "10d" = match_icon "10n" ∧
    match_icon "11d" = match_icon "11n" ∧
    match_icon "13d" = match_icon "13n" ∧
    match_icon "50d" = match_icon "50n" ∧
    match_icon "01d" ≠ match_icon "01n" ∧
    match_icon "02d" ≠ match_icon "02n" := by
  decide

/-- C2 counterexample: resolving from a file whose data list is empty,
or whose data list holds a token outside the recognized vocabulary,
succeeds rather than failing with a validation error. -/
theorem C2_counterexample :
    toml_from_file ⟨some "London", none, some "GB", some "secret", none, some []⟩ =
      Except.ok { city := "London", state := "", country := "GB",
                  api_key := "secret", imperial := false, data := ([] : List String) } ∧
    toml_from_file ⟨some "London", none, some "GB", some "secret", none,
        some ["pressure"]⟩ =
      Except.ok { city := "London", state := "", country := "GB",
                  api_key := "secret", imperial := false, data := ["pressure"] } := by
  exact ⟨rfl, rfl⟩

/-- C2 (amended): command-line resolution fails when city, country,
api_key or the data argument is missing, and when a data value lies
outside the CLI vocabulary (icon, temp, feels_like, description,
humidity — note time is absent); file resolution fails exactly when
city, country or api_key is missing, and otherwise succeeds with
defaults, performing no validation of the data list — an empty or
unrecognized data list from a file is accepted. -/
theorem C2_config_amended :
    (∀ t : FileConfig, t.city = none ∨ t.country = none ∨ t.api_key = none →
      ∃ e, toml_from_file t = .error e) ∧
    (∀ (c st co : Option String) (d : Option (List String)) (i : Bool)
        (k : Option String), c = none ∨ co = none ∨ d = none ∨ k = none →
      ∃ e, cliConfig c st co d i k = .error e) ∧
    (∀ (c co k : String) (st : Option String) (ds : List String) (i : Bool)
        (f : String), f ∈ ds → f ∉ dataPossibleValues →
      ∃ e, cliConfig (some c) st (some co) (some ds) i (some k) = .error e) ∧
    (∀ (c co k : String) (st : Option String) (i : Option Bool) (ds : List String),
      toml_from_file ⟨some c, st, some co, some k, i, some ds⟩ =
        .ok ⟨c, st.getD "", co, k, i.getD false, ds⟩) := by
  refine ⟨?_, ?_, ?_, ?_⟩
  · rintro ⟨c, st, co, k, i, d⟩ h
    cases c <;> cases co <;> cases k <;> simp_all [toml_from_file]
  · intro c st co d i k h
    cases c <;> cases co <;> cases d <;> cases k <;> simp_all [cliConfig]
  · intro c co k st ds i f hmem hbad
    unfold cliConfig
    have hne : ds.isEmpty = false := by
      cases ds with
      | nil => cases hmem
      | cons a l => rfl
    have hall : ds.all (fun d => decide (d ∈ dataPossibleValues)) = false := by
      rw [List.all_eq_false]
      exact ⟨f, hmem, by simpa using hbad⟩
    simp [hne, hall]
  · intro c co k st i ds
    rfl

/-- C2 witness: the amended theorem applied at concrete inputs — a file
missing its city errors, a CLI invocation missing its country errors, a
CLI data value "pressure" errors, and a file with an empty data list
resolves successfully. -/
theorem C2_config_amended_witness :
    (∃ e, toml_from_file ⟨none, none, some "GB", some "secret", none, none⟩ = .error e) ∧
    (∃ e, cliConfig (some "London") none none (some ["temp"]) false (some "secret") =
      .error e) ∧
    (∃ e, cliConfig (some "London") none (some "GB") (some ["pressure"]) false
      (some "secret") = .error e) ∧
    toml_from_file ⟨some "London", none, some "GB", some "secret", none, some []⟩ =
      .ok ⟨"London", "", "GB", "secret", false, []⟩ :=
  ⟨C2_config_amended.1 _ (Or.inl rfl),
   C2_config_amended.2.1 _ _ _ _ _ _ (Or.inr (Or.inl rfl)),
   C2_config_amended.2.2.1 "London" "GB" "secret" none _ false "pressure"
     (by decide) (by decide),
   C2_config_amended.2.2.2 "London" "GB" "secret" none none []⟩

/-- C3: `Location::to_string` yields "city,country" when the state is
empty and "city,state,country" otherwise. -/
theorem C3_location_to_string (l : Location) :
    (l.state = "" → l.to_string = l.city ++ "," ++ l.country) ∧
    (l.state ≠ "" → l.to_string = l.city ++ "," ++ l.state ++ "," ++ l.country) := by
  constructor
  · intro h
    simp [Location.to_string, h, show ("" : String).isEmpty = true from rfl]
  · intro h
    simp [Location.to_string, String.isEmpty_iff, h]

/-- C3 witness: the theorem applied to "London","","GB" and to
"Austin","TX","US". -/
theorem C3_location_to_string_witness :
    (Location.mk "London" "" "GB").to_string = "London,GB" ∧
    (Location.mk "Austin" "TX" "US").to_string = "Austin,TX,US" :=
  ⟨(C3_location_to_string ⟨"London", "", "GB"⟩).1 rfl,
   (C3_location_to_string ⟨"Austin", "TX", "US"⟩).2 (by decide)⟩

/-- C4 counterexample: a temp of -0.3 rounds to the nearest integer 0,
so the claim demands "0°", but `f64::round` preserves the sign of zero
and the program prints "-0°". -/
theorem C4_counterexample :
    (mkResponse [clearSky] (-3/10) (-3/10) 52 0 0).get "temp" = some "-0°" ∧
    (mkResponse [clearSky] (-3/10) (-3/10) 52 0 0).get "temp" ≠ some "0°" := by
  have h : rustRound ((-3 : ℚ)/10) = 0 := by norm_num [rustRound]
  have hd : displayRound ((-3 : ℚ)/10) = "-0" := by
    rw [displayRound, if_pos ⟨by norm_num, h⟩]
  constructor <;> simp [CurrentWeather.get, mkResponse, hd]

/-- C4 (amended): `get` renders temp and feels_like as the rounded
temperature followed by a degree glyph; the rounding lands within 1/2
of the exact value (nearest integer, ties away from zero), the printed
token is the rounded integer except that a strictly negative value
rounding to zero prints as "-0", and concretely 15.4 renders as "15°",
-0.6 as "-1°" and -0.3 as "-0°". -/
theorem C4_temp_amended :
    (∀ w : CurrentWeather,
      w.get "temp" = some (displayRound w.main.temp ++ "°") ∧
      w.get "feels_like" = some (displayRound w.main.feels_like ++ "°")) ∧
    (∀ q : ℚ, |(rustRound q : ℚ) - q| ≤ 1/2) ∧
    (∀ q : ℚ, displayRound q = toString (rustRound q) ∨
      (displayRound q = "-0" ∧ rustRound q = 0 ∧ q < 0)) ∧
    (mkResponse [clearSky] (77/5) (-3/5) 52 0 3600).get "temp" = some "15°" ∧
    (mkResponse [clearSky] (77/5) (-3/5) 52 0 3600).get "feels_like" = some "-1°" ∧
    (mkResponse [clearSky] (-3/10) (-3/10) 52 0 0).get "temp" = some "-0°" := by
  refine ⟨fun w => ⟨rfl, rfl⟩, rustRound_near, ?_, ?_, ?_, ?_⟩
  · intro q
    by_cases h : q < 0 ∧ rustRound q = 0
    · exact Or.inr ⟨by rw [displayRound, if_pos h], h.2, h.1⟩
    · exact Or.inl (by rw [displayRound, if_neg h])
  · have h : rustRound ((77 : ℚ)/5) = 15 := by norm_num [rustRound]
    have hd : displayRound ((77 : ℚ)/5) = "15" := by
      rw [displayRound, if_neg (by simp [h])]
      rw [h]; rfl
    simp [CurrentWeather.get, mkResponse, hd]
  · have h : rustRound (-(3 : ℚ)/5) = -1 := by norm_num [rustRound]
    have hd : displayRound (-(3 : ℚ)/5) = "-1" := by
      rw [displayRound, if_neg (by simp [h])]
      rw [h]; rfl
    simp [CurrentWeather.get, mkResponse, hd]
  · have h : rustRound ((-3 : ℚ)/10) = 0 := by norm_num [rustRound]
    have hd : displayRound ((-3 : ℚ)/10) = "-0" := by
      rw [displayRound, if_pos ⟨by norm_num, h⟩]
    simp [CurrentWeather.get, mkResponse, hd]

/-- C5: icon translation is total — each of the eighteen codes of the
fixed table maps to its table symbol (given here by explicit code
points), and every string outside the table maps to "?". -/
theorem C5_match_icon_total :
    (match_icon "01d" = "" ∧ match_icon "01n" = "" ∧
     match_icon "02d" = "" ∧ match_icon "02n" = "" ∧
     match_icon "03d" = "摒" ∧ match_icon "03n" = "摒" ∧
     match_icon "04d" = "" ∧ match_icon "04n" = "" ∧
     match_icon "09d" = "" ∧ match_icon "09n" = "" ∧
     match_icon "10d" = "" ∧ match_icon "10n" = "" ∧
     match_icon "11d" = "" ∧ match_icon "11n" = "" ∧
     match_icon "13d" = "" ∧ match_icon "13n" = "" ∧
     match_icon "50d" = "" ∧ match_icon "50n" = "") ∧
    ∀ s : String, s ∉ iconTable → match_icon s = "?" := by
  refine ⟨by decide, ?_⟩
  intro s h
  simp [iconTable, CLEAR_DAY, CLEAR_NIGHT, FEW_CLOUDS_DAY, FEW_CLOUDS_NIGHT,
    SCATTERED_CLOUDS_DAY, SCATTERED_CLOUDS_NIGHT, BROKEN_CLOUDS_DAY, BROKEN_CLOUDS_NIGHT,
    SHOWER_RAIN_DAY, SHOWER_RAIN_NIGHT, RAIN_DAY, RAIN_NIGHT, THUNDERSTORM_DAY,
    THUNDERSTORM_NIGHT, SNOW_DAY, SNOW_NIGHT, MIST_DAY, MIST_NIGHT] at h
  simp [match_icon, CLEAR_DAY, CLEAR_NIGHT, FEW_CLOUDS_DAY, FEW_CLOUDS_NIGHT,
    SCATTERED_CLOUDS_DAY, SCATTERED_CLOUDS_NIGHT, BROKEN_CLOUDS_DAY, BROKEN_CLOUDS_NIGHT,
    SHOWER_RAIN_DAY, SHOWER_RAIN_NIGHT, RAIN_DAY, RAIN_NIGHT, THUNDERSTORM_DAY,
    THUNDERSTORM_NIGHT, SNOW_DAY, SNOW_NIGHT, MIST_DAY, MIST_NIGHT, h]

/-- C5 witness: "abc" is outside the table and maps to "?". -/
theorem C5_match_icon_total_witness :
    "abc" ∉ iconTable ∧ match_icon "abc" = "?" :=
  ⟨by decide, C5_match_icon_total.2 "abc" (by decide)⟩

/-- C6 counterexample: on a response with dt = -10 and timezone = 0 the
time rendering panics (embedded as `none`) instead of producing a
wall-clock string, so the claim does not hold for every response. -/
theorem C6_counterexample :
    (mkResponse [clearSky] 0 0 52 (-10) 0).get "time" = none := by
  decide

/-- C6 (amended): time rendering dispatches to `epoch_to_time` on
dt + timezone; whenever that sum is non-negative (and within chrono's
representable range) the result is the wall-clock decomposition
HH:MM:SS of the sum; in particular dt = 0 with timezone = 3600 renders
as "01:00:00". -/
theorem C6_time_amended :
    (∀ w : CurrentWeather, w.get "time" = epoch_to_time (w.dt + w.timezone)) ∧
    (∀ w : CurrentWeather, 0 ≤ w.dt + w.timezone →
      w.dt + w.timezone ≤ chronoMaxTimestamp →
      ∃ h m s : Nat, h < 24 ∧ m < 60 ∧ s < 60 ∧
        h * 3600 + m * 60 + s = (w.dt + w.timezone).toNat % 86400 ∧
        w.get "time" = some (pad2 h ++ ":" ++ pad2 m ++ ":" ++ pad2 s)) ∧
    (mkResponse [clearSky] 0 0 52 0 3600).get "time" = some "01:00:00" := by
  refine ⟨fun w => rfl, ?_, by decide⟩
  intro w h1 h2
  refine ⟨(w.dt + w.timezone).toNat / 3600 % 24, (w.dt + w.timezone).toNat / 60 % 60,
    (w.dt + w.timezone).toNat % 60, by omega, by omega, by omega, by omega, ?_⟩
  show epoch_to_time (w.dt + w.timezone) = _
  rw [epoch_to_time, if_pos ⟨h1, h2⟩]

/-- C6 witness: the amended theorem applied to the response with dt = 0,
timezone = 3600. -/
theorem C6_time_amended_witness :
    0 ≤ (mkResponse [clearSky] 0 0 52 0 3600).dt +
      (mkResponse [clearSky] 0 0 52 0 3600).timezone ∧
    (mkResponse [clearSky] 0 0 52 0 3600).dt +
      (mkResponse [clearSky] 0 0 52 0 3600).timezone ≤ chronoMaxTimestamp ∧
    (∃ h m s : Nat, h < 24 ∧ m < 60 ∧ s < 60 ∧
      h * 3600 + m * 60 + s =
        ((mkResponse [clearSky] 0 0 52 0 3600).dt +
          (mkResponse [clearSky] 0 0 52 0 3600).timezone).toNat % 86400 ∧
      (mkResponse [clearSky] 0 0 52 0 3600).get "time" =
        some (pad2 h ++ ":" ++ pad2 m ++ ":" ++ pad2 s)) :=
  ⟨by decide, by decide,
   C6_time_amended.2.1 (mkResponse [clearSky] 0 0 52 0 3600) (by decide) (by decide)⟩

/-- C7: an unrecognized field name is not an error — `get` returns a
placeholder string that contains the field name as a literal
substring. -/
theorem C7_unknown_field (w : CurrentWeather) (item : String)
    (h : item ∉ ["icon", "temp", "feels_like", "humidity", "description", "time"]) :
    ∃ s, w.get item = some s ∧ ∃ p q, s = p ++ item ++ q := by
  refine ⟨"('" ++ item ++ "?')", ?_, "('", "?')", rfl⟩
  simp at h
  simp [CurrentWeather.get, h]

/-- C7 witness: the theorem applied at the field name "pressure". -/
theorem C7_unknown_field_witness :
    "pressure" ∉ ["icon", "temp", "feels_like", "humidity", "description", "time"] ∧
    ∃ s, (mkResponse [clearSky] 0 0 52 0 0).get "pressure" = some s ∧
      ∃ p q, s = p ++ "pressure" ++ q :=
  ⟨by decide, C7_unknown_field (mkResponse [clearSky] 0 0 52 0 0) "pressure" (by decide)⟩

/-- C8: when every requested field renders, the output line of `app` is
exactly the renderings in request order joined by single spaces. -/
theorem C8_output_line (w : CurrentWeather) (fields outs : List String)
    (h : List.Forall₂ (fun f s => w.get f = some s) fields outs) :
    appOutput w fields = some (String.intercalate " " outs) := by
  unfold appOutput
  rw [mapM_get_eq_some w h]
  rfl

/-- C8 witness: the theorem applied to the fields humidity and
description on a concrete response. -/
theorem C8_output_line_witness :
    List.Forall₂ (fun f s => (mkResponse [clearSky] 0 0 52 0 0).get f = some s)
      ["humidity", "description"] ["52%", "clear sky"] ∧
    appOutput (mkResponse [clearSky] 0 0 52 0 0) ["humidity", "description"] =
      some (String.intercalate " " ["52%", "clear sky"]) :=
  ⟨.cons (by decide) (.cons (by decide) .nil),
   C8_output_line (mkResponse [clearSky] 0 0 52 0 0) _ _
     (.cons (by decide) (.cons (by decide) .nil))⟩

/-- C9: on a response whose weather-condition list is empty, rendering
icon or description panics (`weather[0]` out of bounds, embedded as
`none`) instead of producing a string. -/
theorem C9_empty_weather (w : CurrentWeather) (h : w.weather = []) :
    w.get "icon" = none ∧ w.get "description" = none := by
  simp [CurrentWeather.get, h]

/-- C9 witness: the theorem applied to a response with no weather
entries. -/
theorem C9_empty_weather_witness :
    (mkResponse [] 0 0 52 0 0).weather = [] ∧
    (mkResponse [] 0 0 52 0 0).get "icon" = none ∧
    (mkResponse [] 0 0 52 0 0).get "description" = none :=
  ⟨rfl, C9_empty_weather (mkResponse [] 0 0 52 0 0) rfl⟩

/-- C10: when dt + timezone is negative, time rendering panics (the
i64-to-u64 conversion fails and is unwrapped, embedded as `none`). -/
theorem C10_negative_time (w : CurrentWeather) (h : w.dt + w.timezone < 0) :
    w.get "time" = none := by
  show epoch_to_time (w.dt + w.timezone) = none
  rw [epoch_to_time, if_neg]
  intro h2
  omega

/-- C10 witness: the theorem applied to a response with dt = -3601 and
timezone = 3600. -/
theorem C10_negative_time_witness :
    (mkResponse [clearSky] 0 0 52 (-3601) 3600).dt +
      (mkResponse [clearSky] 0 0 52 (-3601) 3600).timezone < 0 ∧
    (mkResponse [clearSky] 0 0 52 (-3601) 3600).get "time" = none :=
  ⟨by decide, C10_negative_time (mkResponse [clearSky] 0 0 52 (-3601) 3600) (by decide)⟩
